import Mathlib

/-!
Verification of the Infinite Tower gameplay simulation core
(`infinite_tower/systems/{combat,physics,ai}.py`, `entities/enemy.py`,
`game.py`) against its natural-language specification.

Numbers: Python floats/ints are modelled exactly over `ℚ`/`ℤ`; Python's
`int(x)` (truncation toward zero) is `pyint`.  pygame `Rect` coordinates
are integers.  The transcendental bearing computation of
`AI._player_in_vision_cone` (atan2 / degrees) is not embedded; its Boolean
result is passed to the decision function as an input, which is exactly
how `decide_action` consumes it.
-/

namespace InfiniteTower

/-- Python `int(x)` on a rational: truncation toward zero. -/
def pyint (q : ℚ) : ℤ := if q < 0 then ⌈q⌉ else ⌊q⌋

/-- `combat.DamageType` (the `TRUE` member is named `trueDmg` here). -/
inductive DamageType where
  | physical | magical | fire | ice | poison | trueDmg
deriving DecidableEq

/-- Mutable configuration of `combat.CombatSystem` (constructor defaults:
`damage_multiplier = 1.0`, `critical_multiplier = 1.5`). -/
structure CombatSystem where
  damage_multiplier : ℚ
  critical_multiplier : ℚ
deriving DecidableEq

/-- The `CombatSystem()` constructor values. -/
def defaultCombatSystem : CombatSystem := { damage_multiplier := 1, critical_multiplier := 3/2 }

/-- Stats of an entity as read by the combat system (`attack_power`,
`defense`, `health`, `max_health` are integers on `Player`/`Enemy`;
`attack_range` is read by `perform_ranged_attack`). -/
structure Combatant where
  attack_power : ℤ
  defense : ℤ
  health : ℤ
  max_health : ℤ
  attack_range : ℚ
deriving DecidableEq

/-- `CombatSystem.calculate_damage`: `TRUE` damage ignores defense; any
other type subtracts `defense * 0.5` and floors the result at 1. -/
def calculate_damage (sys : CombatSystem) (base_damage : ℤ) (defender_defense : ℤ)
    (damage_type : DamageType) (attacker_power : ℚ) : ℤ :=
  if damage_type = DamageType.trueDmg then
    pyint ((base_damage : ℚ) * attacker_power * sys.damage_multiplier)
  else
    let damage_reduction : ℚ := (defender_defense : ℚ) * (1/2)
    let effective_damage : ℚ :=
      (base_damage : ℚ) * attacker_power * sys.damage_multiplier - damage_reduction
    max 1 (pyint effective_damage)

/-- Result record of `combat.AttackResult` (damage, roll outcomes,
defeat flag). -/
structure AttackResult where
  damage : ℤ
  was_critical : Bool
  was_blocked : Bool
  target_defeated : Bool
deriving DecidableEq

/-- `CombatSystem.perform_attack` with the two `random.random()` rolls
made explicit inputs (`is_critical`, `is_blocked`).  Returns the result
record together with the mutated defender (`defender.health -= damage`
is not clamped). -/
def perform_attack (sys : CombatSystem) (attacker defender : Combatant)
    (is_critical is_blocked : Bool) (damage_type : DamageType) :
    AttackResult × Combatant :=
  let base0 : ℤ := attacker.attack_power
  let base1 : ℤ :=
    if is_critical then pyint ((base0 : ℚ) * sys.critical_multiplier) else base0
  let base2 : ℤ := if is_blocked then pyint ((base1 : ℚ) * (1/2)) else base1
  let damage : ℤ := calculate_damage sys base2 defender.defense damage_type 1
  let defender' : Combatant := { defender with health := defender.health - damage }
  ({ damage := damage, was_critical := is_critical, was_blocked := is_blocked,
     target_defeated := decide (defender'.health ≤ 0) }, defender')

/-- `CombatSystem.perform_ranged_attack`: out of range returns `None`;
otherwise attack power is scaled down by the distance falloff, the attack
performed, and the power "restored" by the inverse scaling (both through
`int(...)`).  Returns (result, defender after, attacker after). -/
def perform_ranged_attack (sys : CombatSystem) (attacker defender : Combatant)
    (distance : ℚ) (is_critical is_blocked : Bool) :
    Option (AttackResult × Combatant × Combatant) :=
  let max_range : ℚ := attacker.attack_range
  if distance > max_range then none
  else
    let range_multiplier : ℚ := 1 - (distance / max_range) * (3/10)
    let a1 : Combatant :=
      { attacker with attack_power := pyint ((attacker.attack_power : ℚ) * range_multiplier) }
    let rd := perform_attack sys a1 defender is_critical is_blocked DamageType.physical
    let a2 : Combatant :=
      { a1 with attack_power := pyint ((a1.attack_power : ℚ) / range_multiplier) }
    some (rd.1, rd.2, a2)

/-- `Enemy.take_damage`: subtract `max(1, amount - defense)` and clamp the
result below at 0. -/
def take_damage (e : Combatant) (amount : ℤ) : Combatant :=
  let actual_damage : ℤ := max 1 (amount - e.defense)
  let h : ℤ := e.health - actual_damage
  { e with health := if h < 0 then 0 else h }

/-- `Enemy.is_alive`. -/
def Combatant.is_alive (e : Combatant) : Bool := decide (e.health > 0)

/-- `CombatSystem.heal`: add and clamp above at `max_health`. -/
def heal (target : Combatant) (heal_amount : ℤ) : Combatant :=
  { target with health := min target.max_health (target.health + heal_amount) }

/-- One status-effect record of `CombatSystem.update_effects`
(`damage_over_time` / `heal_over_time`). -/
structure StatusEffect where
  is_damage : Bool
  per_tick : ℤ
  remaining_ticks : ℤ
  tick_rate : ℤ
  current_tick : ℤ
deriving DecidableEq

/-- One loop-body iteration of `CombatSystem.update_effects` for a single
effect on a single entity: bump `current_tick`, apply the unclamped health
write on the tick boundary (damage) or every tick (heal). -/
def update_effect (e : Combatant) (eff : StatusEffect) : Combatant × StatusEffect :=
  let eff1 := { eff with current_tick := eff.current_tick + 1 }
  if eff1.is_damage then
    if eff1.current_tick % eff1.tick_rate = 0 then
      ({ e with health := e.health - eff1.per_tick },
       { eff1 with remaining_ticks := eff1.remaining_ticks - 1 })
    else (e, eff1)
  else
    ({ e with health := e.health + eff1.per_tick },
     { eff1 with remaining_ticks := eff1.remaining_ticks - 1 })

/-- A `pygame.Rect`: integer position and extents.  `right`/`bottom` are
the derived edges. -/
structure Rect where
  x : ℤ
  y : ℤ
  w : ℤ
  h : ℤ
deriving DecidableEq

/-- The `rect.right` accessor. -/
def Rect.right (r : Rect) : ℤ := r.x + r.w

/-- The `rect.bottom` accessor. -/
def Rect.bottom (r : Rect) : ℤ := r.y + r.h

/-- `pygame.Rect.colliderect`: strict AABB overlap; rectangles that merely
touch along an edge do not collide. -/
def colliderect (a b : Rect) : Bool :=
  decide (a.x < b.x + b.w ∧ a.y < b.y + b.h ∧ a.x + a.w > b.x ∧ a.y + a.h > b.y)

/-- `pygame.Rect.collidepoint`: a point on the right or bottom edge is
outside. -/
def collidepoint (r : Rect) (px py : ℤ) : Bool :=
  decide (r.x ≤ px ∧ px < r.x + r.w ∧ r.y ≤ py ∧ py < r.y + r.h)

/-- The four sides `Physics.get_collision_side` can report. -/
inductive CollisionSide where
  | left | right | top | bottom
deriving DecidableEq

/-- `Physics.get_collision_side`: `None` without overlap, otherwise the
side of minimum overlap, ties resolved by the `if/elif` chain in the
order left, right, top, bottom.  (The `velocity` argument of the source
is unused there and omitted.) -/
def get_collision_side (moving_rect static_rect : Rect) : Option CollisionSide :=
  if ¬ (colliderect moving_rect static_rect = true) then none
  else
    let overlap_left : ℤ := moving_rect.right - static_rect.x
    let overlap_right : ℤ := static_rect.right - moving_rect.x
    let overlap_top : ℤ := moving_rect.bottom - static_rect.y
    let overlap_bottom : ℤ := static_rect.bottom - moving_rect.y
    let min_overlap : ℤ := min (min (min overlap_left overlap_right) overlap_top) overlap_bottom
    if min_overlap = overlap_left then some CollisionSide.left
    else if min_overlap = overlap_right then some CollisionSide.right
    else if min_overlap = overlap_top then some CollisionSide.top
    else some CollisionSide.bottom

/-- The static-push resolution step of `Game._update_gameplay` /
`Enemy._resolve_wall_collisions` for one body/obstacle pair: under the
`colliderect` guard, clamp the edge named by `get_collision_side` to the
obstacle's matching edge (a pygame edge assignment moves the rect,
preserving its size). -/
def resolve_static_push (m s : Rect) : Rect :=
  if colliderect m s then
    match get_collision_side m s with
    | some CollisionSide.left => { m with x := s.x - m.w }
    | some CollisionSide.right => { m with x := s.x + s.w }
    | some CollisionSide.top => { m with y := s.y - m.h }
    | some CollisionSide.bottom => { m with y := s.y + s.h }
    | none => m
  else m

/-- Side of minimum overlap as the spec words it: "pick the minimum; on
ties, prefer in fixed priority order left > right > top > bottom".  Used
to compare `get_collision_side` against the spec. -/
def spec_min_side (m s : Rect) : CollisionSide :=
  let dl : ℤ := m.right - s.x
  let dr : ℤ := s.right - m.x
  let dt : ℤ := m.bottom - s.y
  let db : ℤ := s.bottom - m.y
  if dl ≤ dr ∧ dl ≤ dt ∧ dl ≤ db then CollisionSide.left
  else if dr ≤ dt ∧ dr ≤ db then CollisionSide.right
  else if dt ≤ db then CollisionSide.top
  else CollisionSide.bottom

/-- Loop of `Physics.raycast`: `fuel` remaining samples; advance by
`(dx, dy)`, truncate the sample to integers as `int(x), int(y)` and test
every obstacle with `collidepoint`. -/
def raycastAux (fuel : ℕ) (x y dx dy : ℚ) (obstacles : List Rect) : Option (ℚ × ℚ) :=
  match fuel with
  | 0 => none
  | n + 1 =>
    let x1 := x + dx
    let y1 := y + dy
    if obstacles.any (fun r => collidepoint r (pyint x1) (pyint y1)) then some (x1, y1)
    else raycastAux n x1 y1 dx dy obstacles

/-- `Physics.raycast`: march 100 fixed steps along the segment and return
the first sample inside an obstacle. -/
def raycast (start stop : ℚ × ℚ) (obstacles : List Rect) : Option (ℚ × ℚ) :=
  let steps : ℕ := 100
  let dx : ℚ := (stop.1 - start.1) / (steps : ℚ)
  let dy : ℚ := (stop.2 - start.2) / (steps : ℚ)
  raycastAux steps start.1 start.2 dx dy obstacles

/-- `ai.AIState`. -/
inductive AIState where
  | idle | patrol | chase | attack | flee | wander | dead
deriving DecidableEq

/-- `ai.AIBehaviorType`. -/
inductive AIBehaviorType where
  | aggressive | defensive | coward | tank | ranger
deriving DecidableEq

/-- The `ai.AI` controller fields read or written by `update` /
`decide_action`.  `has_target` stands for `self.target is not None`
(when set, the target is always the player). -/
structure AIRec where
  state : AIState
  has_target : Bool
  last_known_target_position : Option (ℚ × ℚ)
  search_timer : ℕ
  search_duration : ℕ
  attack_cooldown : ℕ
  attack_cooldown_max : ℕ
  wander_cooldown : ℕ
  detection_range : ℚ
  attack_range : ℚ
  flee_health_threshold : ℚ
  fov_degrees : ℚ
  vision_range : ℚ
  patrol_points : List (ℚ × ℚ)
deriving DecidableEq

/-- The enemy-entity fields the AI reads: position, health, `attack_range`
and `size` (an `Enemy` always has these attributes). -/
structure Agent where
  pos : ℚ × ℚ
  health : ℚ
  max_health : ℚ
  attack_range : ℚ
  size : ℚ
deriving DecidableEq

/-- `Agent.is_alive`, as `Enemy.is_alive`. -/
def Agent.is_alive (e : Agent) : Bool := decide (e.health > 0)

/-- `AI.__init__` defaults followed by `AI._configure_behavior` for the
given behavior type (the Tank's `entity.speed *= 0.7` touches only the
entity's speed, which the decision logic never reads). -/
def mkAI (behavior : AIBehaviorType) : AIRec :=
  let base : AIRec :=
    { state := AIState.idle
      has_target := false
      last_known_target_position := none
      search_timer := 0
      search_duration := 180
      attack_cooldown := 0
      attack_cooldown_max := 60
      wander_cooldown := 0
      detection_range := 200
      attack_range := 50
      flee_health_threshold := 1/4
      fov_degrees := 90
      vision_range := 300
      patrol_points := [] }
  match behavior with
  | AIBehaviorType.aggressive =>
    { base with detection_range := 900, attack_range := 50, flee_health_threshold := 0,
                fov_degrees := 90, vision_range := 900 }
  | AIBehaviorType.defensive =>
    { base with detection_range := 600, attack_range := 60, flee_health_threshold := 3/20,
                fov_degrees := 80, vision_range := 600 }
  | AIBehaviorType.coward =>
    { base with detection_range := 700, attack_range := 40, flee_health_threshold := 1/2,
                fov_degrees := 100, vision_range := 700 }
  | AIBehaviorType.tank =>
    { base with detection_range := 600, attack_range := 70, flee_health_threshold := 0,
                fov_degrees := 70, vision_range := 600 }
  | AIBehaviorType.ranger =>
    { base with detection_range := 1000, attack_range := 150, flee_health_threshold := 3/10,
                fov_degrees := 110, vision_range := 1000 }

/-- `AI._should_flee`: health ratio strictly below the flee threshold. -/
def should_flee (ai : AIRec) (e : Agent) : Bool :=
  decide (e.health / e.max_health < ai.flee_health_threshold)

/-- Exact test for `sqrt dsq ≤ t` (`dsq` a squared distance): the source
compares the Euclidean distance against a threshold, which for `dsq ≥ 0`
is equivalent to this square comparison. -/
def dist_le (dsq t : ℚ) : Bool := decide (0 ≤ t ∧ dsq ≤ t * t)

/-- Squared Euclidean distance, the radicand of `AI._calculate_distance`. -/
def sq_dist (p q : ℚ × ℚ) : ℚ :=
  (q.1 - p.1) * (q.1 - p.1) + (q.2 - p.2) * (q.2 - p.2)

/-- The `has_los` computation of `AI.decide_action`: `True` when no
obstacle list is given; with a list, `False` outside the cone, otherwise
the raycast from the agent to the player must hit nothing.  `in_cone` is
the (transcendental, not embedded) result of
`AI._player_in_vision_cone`. -/
def has_los (e : Agent) (player_pos : ℚ × ℚ) (in_cone : Bool)
    (obstacles : Option (List Rect)) : Bool :=
  match obstacles with
  | none => true
  | some obs => if in_cone then (raycast e.pos player_pos obs).isNone else false

/-- `AI.decide_action`, the per-tick decision.  Branch order as in the
source: visible target (cone plus line of sight) wins and yields `chase`;
then the flee check; then the detection-range block (whose attack/chase
sub-branch is guarded by the visibility that already returned above);
finally the search / patrol / wander fallback. -/
def decide_action (ai : AIRec) (e : Agent) (player_pos : ℚ × ℚ) (in_cone : Bool)
    (obstacles : Option (List Rect)) : AIRec :=
  let dsq : ℚ := sq_dist e.pos player_pos
  let los : Bool := has_los e player_pos in_cone obstacles
  if in_cone && los then
    { ai with state := AIState.chase, has_target := true,
              last_known_target_position := some player_pos, search_timer := 0 }
  else if should_flee ai e then
    { ai with state := AIState.flee, has_target := true }
  else if dist_le dsq ai.detection_range then
    if ! (in_cone && los) then
      { ai with last_known_target_position := some player_pos,
                state := if ai.patrol_points ≠ [] then AIState.patrol else AIState.wander }
    else
      let attack_hitbox_range : ℚ := e.attack_range
      let optimal_distance : ℚ := attack_hitbox_range + e.size + 20
      if dist_le dsq optimal_distance then
        if dist_le dsq attack_hitbox_range && decide (ai.attack_cooldown = 0) then
          { ai with state := AIState.attack, has_target := true,
                    last_known_target_position := some player_pos }
        else
          { ai with state := AIState.chase, has_target := true,
                    last_known_target_position := some player_pos }
      else
        { ai with state := AIState.chase, has_target := true,
                  last_known_target_position := some player_pos }
  else
    if ai.has_target then
      if ai.search_timer < ai.search_duration then
        { ai with state := AIState.chase, search_timer := ai.search_timer + 1 }
      else
        { ai with has_target := false, last_known_target_position := none,
                  search_timer := 0, state := AIState.wander }
    else
      { ai with state := if ai.patrol_points ≠ [] then AIState.patrol else AIState.wander }

/-- `AI.update`: a dead entity forces the `dead` state and an early
return; otherwise the cooldowns tick down and `decide_action` runs.  The
behavior-execution phase that follows in the source never writes
`self.state` on any reachable path (its only write sits in
`idle_behavior`, which runs only when the freshly decided state is
`idle`, a value `decide_action` never produces — see
`decide_action_state_not_idle`). -/
def update (ai : AIRec) (e : Agent) (player_pos : ℚ × ℚ) (in_cone : Bool)
    (obstacles : Option (List Rect)) : AIRec :=
  if ! e.is_alive then { ai with state := AIState.dead }
  else
    let ai1 : AIRec :=
      { ai with attack_cooldown := if ai.attack_cooldown > 0 then ai.attack_cooldown - 1
                                   else ai.attack_cooldown,
                wander_cooldown := if ai.wander_cooldown > 0 then ai.wander_cooldown - 1
                                   else ai.wander_cooldown }
    decide_action ai1 e player_pos in_cone obstacles

/-! Helper lemmas about `pyint` and the damage pipeline. -/

theorem pyint_intCast (n : ℤ) : pyint (n : ℚ) = n := by
  unfold pyint
  split <;> simp

theorem pyint_mono {q r : ℚ} (h : q ≤ r) : pyint q ≤ pyint r := by
  unfold pyint
  split
  case isTrue hq =>
    split
    case isTrue hr => exact Int.ceil_mono h
    case isFalse hr =>
      have h1 : (⌈q⌉ : ℤ) ≤ 0 := Int.ceil_le.mpr (by exact_mod_cast le_of_lt hq)
      have h2 : (0 : ℤ) ≤ ⌊r⌋ := Int.floor_nonneg.mpr (not_lt.mp hr)
      omega
  case isFalse hq =>
    split
    case isTrue hr => exact absurd (lt_of_le_of_lt h hr) hq
    case isFalse hr => exact Int.floor_mono h

theorem pyint_eq_floor {q : ℚ} (h : 0 ≤ q) : pyint q = ⌊q⌋ := by
  unfold pyint
  rw [if_neg (not_lt.mpr h)]

theorem pyint_eq_of_int {q : ℚ} {n : ℤ} (h : q = (n : ℚ)) : pyint q = n := by
  rw [h, pyint_intCast]

theorem one_le_calculate_damage (sys : CombatSystem) (b d : ℤ) (apw : ℚ)
    {t : DamageType} (ht : t ≠ DamageType.trueDmg) :
    1 ≤ calculate_damage sys b d t apw := by
  unfold calculate_damage
  rw [if_neg ht]
  exact le_max_left _ _

theorem calculate_damage_mono_base (sys : CombatSystem) (t : DamageType) (d : ℤ)
    {b1 b2 : ℤ} (h : b1 ≤ b2) (hdm : 0 ≤ sys.damage_multiplier) :
    calculate_damage sys b1 d t 1 ≤ calculate_damage sys b2 d t 1 := by
  have hc : ((b1 : ℚ)) ≤ (b2 : ℚ) := by exact_mod_cast h
  have hbase : (b1 : ℚ) * 1 * sys.damage_multiplier ≤ (b2 : ℚ) * 1 * sys.damage_multiplier := by
    nlinarith
  unfold calculate_damage
  split
  case isTrue => exact pyint_mono hbase
  case isFalse => exact max_le_max le_rfl (pyint_mono (by linarith))

theorem calculate_damage_anti_defense (sys : CombatSystem) (base : ℤ) (t : DamageType)
    (apw : ℚ) {d1 d2 : ℤ} (h : d1 ≤ d2) :
    calculate_damage sys base d2 t apw ≤ calculate_damage sys base d1 t apw := by
  have hc : ((d1 : ℚ)) ≤ (d2 : ℚ) := by exact_mod_cast h
  unfold calculate_damage
  split
  case isTrue => exact le_refl _
  case isFalse =>
    refine max_le_max le_rfl (pyint_mono ?_)
    have : (d1 : ℚ) * (1/2) ≤ (d2 : ℚ) * (1/2) := by linarith
    linarith

/-- C3: for every attacker/defender stat combination and every
critical/block roll outcome, `perform_attack` with physical damage deals
at least 1 damage; in particular `attack_power = 10` against
`defense = 100` with both rolls failed deals exactly 1 (the floor in
`calculate_damage` triggers). -/
theorem perform_attack_damage_ge_one :
    (∀ (a d : Combatant) (c b : Bool),
        1 ≤ (perform_attack defaultCombatSystem a d c b DamageType.physical).1.damage) ∧
    (perform_attack defaultCombatSystem ⟨10, 0, 100, 100, 50⟩ ⟨10, 100, 100, 100, 50⟩
        false false DamageType.physical).1.damage = 1 := by
  constructor
  · intro a d c b
    simp only [perform_attack]
    exact one_le_calculate_damage _ _ _ _ (by decide)
  · simp only [perform_attack, calculate_damage, defaultCombatSystem]
    rw [if_neg (by decide)]
    rw [pyint_eq_of_int (n := -40) (by norm_num)]
    norm_num

/-- C4 counterexample: `perform_attack` writes `defender.health -= damage`
without clamping, so a defender at health 5 hit for 10 ends at −5; and a
heal-over-time tick of `update_effects` adds without clamping, pushing a
full-health (100/100) entity to 110. -/
theorem health_not_clamped_counterexample :
    (perform_attack defaultCombatSystem ⟨10, 0, 100, 100, 50⟩ ⟨0, 0, 5, 100, 50⟩
        false false DamageType.physical).2.health = -5 ∧
    (update_effect ⟨0, 0, 100, 100, 50⟩ ⟨false, 10, 3, 1, 0⟩).1.health = 110 := by
  constructor
  · simp only [perform_attack, calculate_damage, defaultCombatSystem]
    rw [if_neg (by decide)]
    rw [pyint_eq_of_int (n := 10) (by norm_num)]
    norm_num
  · decide

/-- C4 amended: of the health-modifying operations only `Enemy.take_damage`
(clamped below at 0) and `CombatSystem.heal` (clamped above at
`max_health`) keep health inside `[0, max_health]`; starting from a valid
state they stay in range, while `perform_attack` and the
damage/heal-over-time updates of `update_effects` write unclamped (see
the counterexample). -/
theorem take_damage_heal_clamped :
    (∀ (e : Combatant) (amount : ℤ), 0 ≤ e.max_health → e.health ≤ e.max_health →
        0 ≤ (take_damage e amount).health ∧ (take_damage e amount).health ≤ e.max_health) ∧
    (∀ (t : Combatant) (amount : ℤ), 0 ≤ t.health → 0 ≤ amount → 0 ≤ t.max_health →
        0 ≤ (heal t amount).health ∧ (heal t amount).health ≤ t.max_health) := by
  constructor
  · intro e amount h1 h2
    simp only [take_damage]
    constructor
    · split <;> omega
    · split <;> omega
  · intro t amount h1 h2 h3
    simp only [heal]
    omega

theorem take_damage_heal_clamped_witness :
    (0 ≤ (take_damage ⟨0, 0, 5, 100, 50⟩ 8).health ∧
        (take_damage ⟨0, 0, 5, 100, 50⟩ 8).health ≤ (100 : ℤ)) ∧
    (0 ≤ (heal ⟨0, 0, 95, 100, 50⟩ 20).health ∧
        (heal ⟨0, 0, 95, 100, 50⟩ 20).health ≤ (100 : ℤ)) :=
  ⟨take_damage_heal_clamped.1 ⟨0, 0, 5, 100, 50⟩ 8 (by decide) (by decide),
   take_damage_heal_clamped.2 ⟨0, 0, 95, 100, 50⟩ 20 (by decide) (by decide) (by decide)⟩

/-- C5 counterexample: with the default system (`critical_multiplier = 1.5
> 1`), attacker `attack_power = 10` against `defense = 100` deals 1 both
with a forced critical and with a forced non-critical — the minimum-damage
floor absorbs the difference, so a critical is not strictly stronger. -/
theorem crit_not_strictly_stronger_counterexample :
    1 < defaultCombatSystem.critical_multiplier ∧
    (perform_attack defaultCombatSystem ⟨10, 0, 100, 100, 50⟩ ⟨10, 100, 100, 100, 50⟩
        true false DamageType.physical).1.damage =
      (perform_attack defaultCombatSystem ⟨10, 0, 100, 100, 50⟩ ⟨10, 100, 100, 100, 50⟩
        false false DamageType.physical).1.damage := by
  refine ⟨by norm_num [defaultCombatSystem], ?_⟩
  simp only [perform_attack, calculate_damage, defaultCombatSystem, if_true, if_pos,
    Bool.false_eq_true, if_false]
  rw [if_neg (by decide), if_neg (by decide)]
  rw [pyint_eq_of_int (n := 15) (q := ((10 : ℤ) : ℚ) * (3/2)) (by norm_num)]
  rw [pyint_eq_of_int (n := -35) (by norm_num)]
  rw [pyint_eq_of_int (n := -40) (by norm_num)]
  decide

/-- C5 amended: for identical stats and the same block outcome, a forced
critical hit deals at least as much damage as a forced non-critical hit
whenever the critical multiplier is ≥ 1 (and the damage multiplier is
non-negative and the attack power non-negative); strictness fails only
where the damage floor absorbs the difference. -/
theorem crit_damage_ge_noncrit :
    ∀ (sys : CombatSystem) (a d : Combatant) (b : Bool) (t : DamageType),
      0 ≤ a.attack_power → 1 ≤ sys.critical_multiplier → 0 ≤ sys.damage_multiplier →
      (perform_attack sys a d false b t).1.damage ≤
        (perform_attack sys a d true b t).1.damage := by
  intro sys a d b t hap hcm hdm
  have hcast : (0 : ℚ) ≤ (a.attack_power : ℚ) := by exact_mod_cast hap
  have hb1 : a.attack_power ≤ pyint ((a.attack_power : ℚ) * sys.critical_multiplier) := by
    calc a.attack_power = pyint ((a.attack_power : ℚ)) := (pyint_intCast _).symm
      _ ≤ _ := pyint_mono (le_mul_of_one_le_right hcast hcm)
  simp only [perform_attack]
  refine calculate_damage_mono_base sys t d.defense ?_ hdm
  cases b with
  | false => simpa using hb1
  | true =>
    have hc2 : ((a.attack_power : ℚ)) ≤
        ((pyint ((a.attack_power : ℚ) * sys.critical_multiplier) : ℤ) : ℚ) := by
      exact_mod_cast hb1
    simp only [if_true, if_pos, Bool.false_eq_true, if_false]
    exact pyint_mono (mul_le_mul_of_nonneg_right hc2 (by norm_num))

theorem crit_damage_ge_noncrit_witness :
    (perform_attack ⟨1, 2⟩ ⟨10, 0, 100, 100, 50⟩ ⟨0, 0, 100, 100, 50⟩ false false
        DamageType.physical).1.damage ≤
      (perform_attack ⟨1, 2⟩ ⟨10, 0, 100, 100, 50⟩ ⟨0, 0, 100, 100, 50⟩ true false
        DamageType.physical).1.damage :=
  crit_damage_ge_noncrit ⟨1, 2⟩ ⟨10, 0, 100, 100, 50⟩ ⟨0, 0, 100, 100, 50⟩ false
    DamageType.physical (by decide) (by decide) (by decide)

/-- C6: with the attacker's stats, roll outcomes, damage type and
multipliers held fixed, increasing the defender's defense never increases
the damage computed by `calculate_damage`, nor the damage dealt by
`perform_attack`. -/
theorem damage_antitone_in_defense :
    (∀ (sys : CombatSystem) (base : ℤ) (t : DamageType) (apw : ℚ) (d1 d2 : ℤ), d1 ≤ d2 →
        calculate_damage sys base d2 t apw ≤ calculate_damage sys base d1 t apw) ∧
    (∀ (sys : CombatSystem) (a dfn1 dfn2 : Combatant) (c b : Bool) (t : DamageType),
        dfn1.defense ≤ dfn2.defense →
        (perform_attack sys a dfn2 c b t).1.damage ≤ (perform_attack sys a dfn1 c b t).1.damage) := by
  constructor
  · intro sys base t apw d1 d2 h
    exact calculate_damage_anti_defense sys base t apw h
  · intro sys a dfn1 dfn2 c b t h
    simp only [perform_attack]
    exact calculate_damage_anti_defense sys _ t 1 h

theorem damage_antitone_in_defense_witness :
    calculate_damage defaultCombatSystem 10 100 DamageType.physical 1 ≤
      calculate_damage defaultCombatSystem 10 0 DamageType.physical 1 ∧
    (perform_attack defaultCombatSystem ⟨10, 0, 100, 100, 50⟩ ⟨0, 5, 100, 100, 50⟩ false false
        DamageType.physical).1.damage ≤
      (perform_attack defaultCombatSystem ⟨10, 0, 100, 100, 50⟩ ⟨0, 0, 100, 100, 50⟩ false false
        DamageType.physical).1.damage :=
  ⟨damage_antitone_in_defense.1 defaultCombatSystem 10 DamageType.physical 1 0 100 (by decide),
   damage_antitone_in_defense.2 defaultCombatSystem ⟨10, 0, 100, 100, 50⟩ ⟨0, 0, 100, 100, 50⟩
     ⟨0, 5, 100, 100, 50⟩ false false DamageType.physical (by decide)⟩

/-- C10: `perform_ranged_attack` does not restore the attacker's
`attack_power`.  At `attack_power = 10`, `attack_range = 200`,
`distance = 100` the falloff multiplier is 0.85, the scaled power
`int(10 * 0.85) = 8`, and the "restore" computes `int(8 / 0.85) = 9`,
leaving 9 ≠ 10 on the attacker after the call (the source's own comment
says "Restore attack power"; `apply_area_damage` restores from a saved
original instead). -/
theorem ranged_attack_power_not_restored :
    (perform_ranged_attack defaultCombatSystem ⟨10, 0, 100, 100, 200⟩
        ⟨0, 0, 100, 100, 50⟩ 100 false false).map (fun r => r.2.2.attack_power) = some 9 ∧
    (9 : ℤ) ≠ 10 := by
  refine ⟨?_, by decide⟩
  simp only [perform_ranged_attack]
  rw [if_neg (by norm_num)]
  simp only [Option.map_some']
  rw [show pyint ((((10:ℤ) : ℚ)) * (1 - 100 / 200 * (3/10))) = 8 from by
    rw [show ((((10:ℤ) : ℚ)) * (1 - 100 / 200 * (3/10))) = 17/2 from by norm_num,
       pyint_eq_floor (by norm_num)]
    norm_num]
  rw [show pyint ((((8:ℤ) : ℚ)) / (1 - (100:ℚ) / 200 * (3/10))) = 9 from by
    rw [show ((((8:ℤ) : ℚ)) / (1 - (100:ℚ) / 200 * (3/10)) : ℚ) = 160/17 from by norm_num,
       pyint_eq_floor (by norm_num)]
    norm_num [Int.floor_eq_iff]]

/-- C7: for every overlapping pair, `get_collision_side` reports exactly
the side of minimum overlap depth with tie priority left > right > top >
bottom (the spec-worded `spec_min_side`), and the static push clamps the
moving rect's edge on that single axis to the obstacle's matching edge,
leaving the perpendicular coordinate and the size untouched.  Scenario E
(player (0,0,32,32) vs wall (20,0,32,32), depths 12/52/32/32) instantiates
to side `left` with the right edge clamped to 20 — see the witness. -/
theorem collision_side_min_overlap :
    ∀ m s : Rect, colliderect m s = true →
      get_collision_side m s = some (spec_min_side m s) ∧
      (spec_min_side m s = CollisionSide.left →
        resolve_static_push m s = ⟨s.x - m.w, m.y, m.w, m.h⟩) ∧
      (spec_min_side m s = CollisionSide.right →
        resolve_static_push m s = ⟨s.x + s.w, m.y, m.w, m.h⟩) ∧
      (spec_min_side m s = CollisionSide.top →
        resolve_static_push m s = ⟨m.x, s.y - m.h, m.w, m.h⟩) ∧
      (spec_min_side m s = CollisionSide.bottom →
        resolve_static_push m s = ⟨m.x, s.y + s.h, m.w, m.h⟩) := by
  intro m s h
  have hside : get_collision_side m s = some (spec_min_side m s) := by
    simp only [get_collision_side, spec_min_side, Rect.right, Rect.bottom]
    rw [if_neg (not_not_intro h)]
    split_ifs <;> first | rfl | (exfalso; omega)
  refine ⟨hside, ?_, ?_, ?_, ?_⟩ <;> intro hs <;>
    · unfold resolve_static_push
      rw [if_pos h, hside, hs]

theorem collision_side_min_overlap_witness :
    get_collision_side ⟨0, 0, 32, 32⟩ ⟨20, 0, 32, 32⟩ = some CollisionSide.left ∧
    resolve_static_push ⟨0, 0, 32, 32⟩ ⟨20, 0, 32, 32⟩ = ⟨-12, 0, 32, 32⟩ := by
  have h := collision_side_min_overlap ⟨0, 0, 32, 32⟩ ⟨20, 0, 32, 32⟩ (by decide)
  have hspec : spec_min_side ⟨0, 0, 32, 32⟩ ⟨20, 0, 32, 32⟩ = CollisionSide.left := by decide
  refine ⟨by rw [h.1, hspec], ?_⟩
  have h2 := h.2.1 hspec
  rw [h2]
  decide

/-- C8: resolving a non-overlapping body/obstacle pair is a no-op — the
guard `colliderect` fails and the rect is returned unchanged — and a pair
whose edges exactly touch (moving.right = obstacle.left, no area overlap)
counts as non-overlapping, so it too is left untouched. -/
theorem resolve_noop_when_separated :
    (∀ m s : Rect, colliderect m s = false → resolve_static_push m s = m) ∧
    (∀ m s : Rect, m.right = s.x →
      colliderect m s = false ∧ resolve_static_push m s = m) := by
  have h1 : ∀ m s : Rect, colliderect m s = false → resolve_static_push m s = m := by
    intro m s h
    unfold resolve_static_push
    simp [h]
  refine ⟨h1, ?_⟩
  intro m s h
  have hc : colliderect m s = false := by
    simp only [colliderect, decide_eq_false_iff_not, Rect.right] at *
    intro hcon
    omega
  exact ⟨hc, h1 m s hc⟩

theorem resolve_noop_when_separated_witness :
    resolve_static_push ⟨0, 0, 32, 32⟩ ⟨40, 0, 32, 32⟩ = ⟨0, 0, 32, 32⟩ ∧
    (colliderect ⟨0, 0, 32, 32⟩ ⟨32, 0, 32, 32⟩ = false ∧
      resolve_static_push ⟨0, 0, 32, 32⟩ ⟨32, 0, 32, 32⟩ = ⟨0, 0, 32, 32⟩) :=
  ⟨resolve_noop_when_separated.1 ⟨0, 0, 32, 32⟩ ⟨40, 0, 32, 32⟩ (by decide),
   resolve_noop_when_separated.2 ⟨0, 0, 32, 32⟩ ⟨32, 0, 32, 32⟩ (by decide)⟩

/-! Helper lemmas about the AI embedding. -/

theorem raycastAux_nil (fuel : ℕ) : ∀ x y dx dy : ℚ, raycastAux fuel x y dx dy [] = none := by
  induction fuel with
  | zero => intro x y dx dy; rfl
  | succ n ih =>
    intro x y dx dy
    simp only [raycastAux, List.any_nil]
    exact ih (x + dx) (y + dy) dx dy

theorem raycast_nil (s e : ℚ × ℚ) : raycast s e [] = none := by
  simp only [raycast]
  exact raycastAux_nil 100 s.1 s.2 _ _

theorem decide_action_state_ne (ai : AIRec) (e : Agent) (p : ℚ × ℚ) (c : Bool)
    (o : Option (List Rect)) :
    (decide_action ai e p c o).state ≠ AIState.dead ∧
    (decide_action ai e p c o).state ≠ AIState.idle := by
  simp only [decide_action, Bool.and_eq_true]
  by_cases hv : (c = true ∧ has_los e p c o = true)
  · rw [if_pos hv]
    constructor <;> simp
  · rw [if_neg hv]
    constructor <;> (split_ifs <;> simp_all)

theorem decide_action_never_attack (ai : AIRec) (e : Agent) (p : ℚ × ℚ) (c : Bool)
    (o : Option (List Rect)) :
    (decide_action ai e p c o).state ≠ AIState.attack := by
  cases c with
  | true =>
    cases hl : has_los e p true o with
    | true => simp [decide_action, hl]
    | false =>
      simp only [decide_action, hl]
      split_ifs <;> simp_all
  | false =>
    simp only [decide_action]
    split_ifs <;> simp_all

/-- C1 counterexample: a Coward agent (flee threshold 0.5) at 40% health
whose target is clearly visible (in cone, unobstructed — empty obstacle
list) and inside its 40-unit attack range resolves to `chase`, not
`flee`: in `decide_action` the visibility branch returns before the flee
check runs. -/
theorem flee_priority_counterexample :
    should_flee (mkAI AIBehaviorType.coward) ⟨(0, 0), 40, 100, 50, 28⟩ = true ∧
    dist_le (sq_dist (0, 0) (10, 0)) (mkAI AIBehaviorType.coward).attack_range = true ∧
    (decide_action (mkAI AIBehaviorType.coward) ⟨(0, 0), 40, 100, 50, 28⟩ (10, 0) true
        (some [])).state = AIState.chase ∧
    AIState.chase ≠ AIState.flee := by
  refine ⟨?_, ?_, ?_, by decide⟩
  · simp only [should_flee, mkAI, decide_eq_true_eq]
    norm_num
  · simp only [dist_le, sq_dist, mkAI, decide_eq_true_eq]
    norm_num
  · simp [decide_action, has_los, raycast_nil]

/-- C1 amended: the flee transition fires only when the target is not
currently visible: whenever the in-cone-with-line-of-sight test is false
and the health ratio is strictly below the flee threshold,
`decide_action` resolves to `flee`; a visible target pre-empts it with
`chase`. -/
theorem flee_when_not_visible :
    ∀ (ai : AIRec) (e : Agent) (p : ℚ × ℚ) (c : Bool) (o : Option (List Rect)),
      (c && has_los e p c o) = false → should_flee ai e = true →
      (decide_action ai e p c o).state = AIState.flee := by
  intro ai e p c o h1 h2
  simp [decide_action, h1, h2]

theorem flee_when_not_visible_witness :
    (decide_action
        ⟨AIState.idle, false, none, 0, 180, 0, 60, 0, 200, 50, 1, 90, 300, []⟩
        ⟨(0, 0), 0, 1, 50, 28⟩ (5, 5) false none).state = AIState.flee :=
  flee_when_not_visible
    ⟨AIState.idle, false, none, 0, 180, 0, 60, 0, 200, 50, 1, 90, 300, []⟩
    ⟨(0, 0), 0, 1, 50, 28⟩ (5, 5) false none (by decide)
    (by simp [should_flee])

/-- C2 counterexample: an Aggressive agent with attack cooldown 0 and a
clearly visible target 10 units away (inside both the AI's and the
entity's 50-unit attack range) resolves to `chase`, not `attack`: the
visibility branch of `decide_action` returns `chase` before the
attack-decision block, which is unreachable. -/
theorem attack_unreachable_counterexample :
    (mkAI AIBehaviorType.aggressive).attack_cooldown = 0 ∧
    dist_le (sq_dist (0, 0) (10, 0)) (⟨(0, 0), 100, 100, 50, 28⟩ : Agent).attack_range = true ∧
    (decide_action (mkAI AIBehaviorType.aggressive) ⟨(0, 0), 100, 100, 50, 28⟩ (10, 0) true
        (some [])).state = AIState.chase ∧
    AIState.chase ≠ AIState.attack := by
  refine ⟨by simp [mkAI], ?_, ?_, by decide⟩
  · simp only [dist_le, sq_dist, decide_eq_true_eq]
    norm_num
  · simp [decide_action, has_los, raycast_nil]

/-- C2 amended: whenever the target is visible (in cone with line of
sight), the per-tick decision assigns `chase` regardless of attack range
and cooldown; `decide_action` never assigns `attack` on any input (its
attack branch sits inside a region already excluded by the early visible
return). -/
theorem visible_yields_chase_never_attack :
    (∀ (ai : AIRec) (e : Agent) (p : ℚ × ℚ) (c : Bool) (o : Option (List Rect)),
        (c && has_los e p c o) = true →
        (decide_action ai e p c o).state = AIState.chase) ∧
    (∀ (ai : AIRec) (e : Agent) (p : ℚ × ℚ) (c : Bool) (o : Option (List Rect)),
        (decide_action ai e p c o).state ≠ AIState.attack) := by
  constructor
  · intro ai e p c o h
    simp [decide_action, h]
  · intro ai e p c o
    exact decide_action_never_attack ai e p c o

theorem visible_yields_chase_never_attack_witness :
    (decide_action (mkAI AIBehaviorType.aggressive) ⟨(0, 0), 100, 100, 50, 28⟩ (10, 0) true
        none).state = AIState.chase :=
  visible_yields_chase_never_attack.1 (mkAI AIBehaviorType.aggressive)
    ⟨(0, 0), 100, 100, 50, 28⟩ (10, 0) true none (by decide)

/-- C9: the per-tick `AI.update` yields the `dead` state exactly when the
entity's health is ≤ 0 (so a dead agent is re-assigned `dead` on every
subsequent tick, and a live agent never is); moreover no combat operation
can revive a dead enemy: `take_damage` keeps non-positive health
non-positive, and `perform_attack` strictly decreases the defender's
health.  Together with the game loop removing dead enemies, `dead` is
terminal for the lifetime of the agent. -/
theorem dead_state_terminal :
    (∀ (ai : AIRec) (e : Agent) (p : ℚ × ℚ) (c : Bool) (o : Option (List Rect)),
        ((update ai e p c o).state = AIState.dead ↔ e.health ≤ 0)) ∧
    (∀ (en : Combatant) (amount : ℤ), en.health ≤ 0 → (take_damage en amount).health ≤ 0) ∧
    (∀ (sys : CombatSystem) (a d : Combatant) (cr bl : Bool),
        (perform_attack sys a d cr bl DamageType.physical).2.health < d.health) := by
  refine ⟨?_, ?_, ?_⟩
  · intro ai e p c o
    constructor
    · intro h
      by_contra hh
      have halive : e.is_alive = true := by
        simp only [Agent.is_alive, decide_eq_true_eq]
        exact lt_of_not_ge hh
      rw [update] at h
      rw [halive] at h
      simp only [Bool.not_true, Bool.false_eq_true, if_false] at h
      exact (decide_action_state_ne _ _ _ _ _).1 h
    · intro h
      have hdead : e.is_alive = false := by
        simp only [Agent.is_alive, decide_eq_false_iff_not]
        exact not_lt.mpr h
      rw [update, hdead]
      rfl
  · intro en amount h
    simp only [take_damage]
    split <;> omega
  · intro sys a d cr bl
    simp only [perform_attack]
    have h1 := one_le_calculate_damage sys
      (if bl = true then
          pyint (((if cr = true then pyint ((a.attack_power : ℚ) * sys.critical_multiplier)
                    else a.attack_power) : ℤ) * (1/2))
        else (if cr = true then pyint ((a.attack_power : ℚ) * sys.critical_multiplier)
                else a.attack_power))
      d.defense 1 (t := DamageType.physical) (by decide)
    omega

theorem dead_state_terminal_witness :
    ((update ⟨AIState.dead, false, none, 0, 180, 0, 60, 0, 200, 50, 0, 90, 300, []⟩
        ⟨(0, 0), 0, 10, 50, 28⟩ (5, 5) false none).state = AIState.dead ↔ (0 : ℚ) ≤ 0) ∧
    (take_damage ⟨0, 0, 0, 10, 50⟩ 5).health ≤ 0 ∧
    (perform_attack defaultCombatSystem ⟨10, 0, 100, 100, 50⟩ ⟨0, 0, 100, 100, 50⟩ false false
        DamageType.physical).2.health < 100 :=
  ⟨dead_state_terminal.1 ⟨AIState.dead, false, none, 0, 180, 0, 60, 0, 200, 50, 0, 90, 300, []⟩
      ⟨(0, 0), 0, 10, 50, 28⟩ (5, 5) false none,
   dead_state_terminal.2.1 ⟨0, 0, 0, 10, 50⟩ 5 (by decide),
   dead_state_terminal.2.2 defaultCombatSystem ⟨10, 0, 100, 100, 50⟩ ⟨0, 0, 100, 100, 50⟩
     false false⟩

end InfiniteTower
